import Mathlib

/-
Verification of the generic data-fetch hook `useFetch` from
`src/S11. React and TS/src/hooks/useFetch.ts`.

The hook is embedded shallowly:

  * `FetchState` mirrors the TypeScript interface `FetchState<T>`
    (`data : T | null`, `loading : boolean`, `error : T | null`; at runtime
    the `error` field holds the caught error value, stored through the
    `err as any` cast in the catch handler, so it is modelled by the
    runtime error type `JsError`).
  * `FetchOutcome` describes how the runtime settles one `fetch(url)`
    call together with reading its body via `res.json()`.
  * `handleResponse` and `settleState` mirror the promise chain
    `fetch(url).then(res => ...).then(data => ...).catch(err => ...)`.
  * `step` / `run` give an operational semantics of the React lifecycle
    around the hook: renders (with the effect re-running exactly when the
    `[url]` dependency changed), asynchronous settlement of issued fetches,
    and unmount.  The effect in the source returns no cleanup function, so
    `step` models no cancellation on url change or unmount; every
    `setState` call made by the code is recorded in the publication log
    `pubs`.
-/

namespace UseFetch

/-- A JavaScript error value as it reaches the hook's catch handler: either
the `Error` thrown in the first then-callback for a non-ok response
(identified by its message string), or a rejection value produced by the
runtime (`fetch` transport failure or `res.json()` parse failure), which the
catch handler stores unchanged. -/
inductive JsError (E : Type) where
  | thrown (msg : String)
  | rejected (e : E)

/-- The record `FetchState<T>` from useFetch.ts.  `data : T | null` becomes
`Option T`; `error` is declared `T | null` in the source but at runtime holds
the caught error value (stored via `err as any`), hence `Option (JsError E)`. -/
structure FetchState (T E : Type) where
  data : Option T
  loading : Bool
  error : Option (JsError E)

variable {T E : Type}

/-- The literal `{data: null, loading: true, error: null}` used both as the
`useState` initial value and as the first `setState` of every effect run. -/
def loadingState : FetchState T E := { data := none, loading := true, error := none }

/-- How the runtime settles one `fetch(url)` call: either the fetch promise
rejects (transport failure), or a response arrives carrying its `ok` flag and
numeric `status`, and reading the body with `res.json()` either rejects
(parse failure) or resolves with a JSON value, where `none` encodes the JSON
value `null`. -/
inductive FetchOutcome (T E : Type) where
  | transportError (e : E)
  | response (ok : Bool) (status : Nat) (body : Except E (Option T))

/-- The message of the error thrown for a non-ok response:
`` `Request failed with status ${res.status}` ``. -/
def statusMessage (status : Nat) : String :=
  "Request failed with status " ++ toString status

/-- The first then-callback,
`(res) => { if (!res.ok) throw new Error(...); return res.json(); }`,
composed with propagation of a transport rejection: it produces either the
parsed payload or the rejection value that reaches `.catch`. -/
def handleResponse : FetchOutcome T E → Except (JsError E) (Option T)
  | .transportError e => .error (.rejected e)
  | .response ok status body =>
      if ok then
        match body with
        | .error e => .error (.rejected e)
        | .ok v => .ok v
      else .error (.thrown (statusMessage status))

/-- The state published when the promise chain settles: the second
then-callback `setState({ data, loading: false, error: null })` on success,
the catch handler `setState({ data: null, loading: false, error: err })` on
any failure.  The function is total: every outcome is caught locally and
normalized into a state, none escapes. -/
def settleState (o : FetchOutcome T E) : FetchState T E :=
  match handleResponse o with
  | .ok v => { data := v, loading := false, error := none }
  | .error e => { data := none, loading := false, error := some e }

/-- One recorded `setState` call ("publication"): either the reset
`setState({data: null, loading: true, error: null})` at the top of effect
run number `runIdx` (which also issues fetch number `runIdx`), or the
settlement `setState` of fetch number `fetchIdx`. -/
inductive Pub (T E : Type) where
  | effectReset (runIdx : Nat) (url : String)
  | settle (fetchIdx : Nat) (s : FetchState T E)

/-- The state value a publication carries. -/
def Pub.state : Pub T E → FetchState T E
  | .effectReset _ _ => loadingState
  | .settle _ s => s

/-- Lifecycle events driving the hook: a render with a url prop (after which
React runs the effect exactly when the `[url]` dependency changed), the
asynchronous settlement of the `k`-th issued fetch, and unmount of the owning
component. -/
inductive Event (T E : Type) where
  | render (url : String)
  | resolve (k : Nat) (o : FetchOutcome T E)
  | unmount

/-- The configuration of one hook instance: whether the owning component is
still mounted, the current hook state (what a render would return), the url
snapshot of the last effect run (the `[url]` dependency), the urls of the
fetches issued so far (fetch `k` targets `fetches[k]`), which fetches have
already settled (a promise settles once), and the log of all `setState`
calls the code has made. -/
structure Config (T E : Type) where
  mounted : Bool
  state : FetchState T E
  lastDep : Option String
  fetches : List String
  settled : List Nat
  pubs : List (Pub T E)

/-- The configuration at mount: `useState` initializes the state to
`{data: null, loading: true, error: null}` and no effect has run yet. -/
def init : Config T E :=
  { mounted := true, state := loadingState, lastDep := none,
    fetches := [], settled := [], pubs := [] }

/-- One lifecycle step.  A render re-runs the effect iff the url differs from
the last dependency snapshot; the effect first publishes the loading reset
and then issues exactly one fetch.  When fetch `k` settles (valid only once,
and only for an issued fetch), the promise callbacks run unconditionally —
the source has no staleness or teardown guard — so the `setState` call is
always recorded in `pubs`; only React's discarding of updates to unmounted
components keeps `state` unchanged after unmount. -/
def step (c : Config T E) : Event T E → Config T E
  | .render url =>
      if c.mounted then
        if c.lastDep = some url then c
        else
          { c with state := loadingState, lastDep := some url,
                   fetches := c.fetches ++ [url],
                   pubs := c.pubs ++ [.effectReset c.fetches.length url] }
      else c
  | .resolve k o =>
      if k < c.fetches.length ∧ k ∉ c.settled then
        { c with settled := c.settled ++ [k],
                 pubs := c.pubs ++ [.settle k (settleState o)],
                 state := if c.mounted then settleState o else c.state }
      else c
  | .unmount => { c with mounted := false }

/-- The configuration reached after a sequence of lifecycle events. -/
def run (evs : List (Event T E)) : Config T E := evs.foldl step init

/-- Form (a): `loading = true, data = absent, error = absent`. -/
def formA (s : FetchState T E) : Bool := s.loading && s.data.isNone && s.error.isNone

/-- Form (b): `loading = false, data = present, error = absent`. -/
def formB (s : FetchState T E) : Bool := !s.loading && s.data.isSome && s.error.isNone

/-- Form (c): `loading = false, data = absent, error = present`. -/
def formC (s : FetchState T E) : Bool := !s.loading && s.data.isNone && s.error.isSome

/-- How many of the three forms a state satisfies; "exactly one of the three
forms holds" is `formCount s = 1`. -/
def formCount (s : FetchState T E) : Nat :=
  (if formA s then 1 else 0) + (if formB s then 1 else 0) + (if formC s then 1 else 0)

/-- An outcome is of one of the three error kinds: transport failure,
non-success response status, or parse failure. -/
def isErrorOutcome : FetchOutcome T E → Bool
  | .transportError _ => true
  | .response ok _ body =>
      !ok || (match body with | .error _ => true | .ok _ => false)

/-- An outcome whose success value, if any, is a present (non-null) payload:
only an ok response whose body resolves with the JSON value `null` fails this. -/
def nonNullSuccess : FetchOutcome T E → Bool
  | .response true _ (.ok none) => false
  | _ => true

/-- The side condition for the three-form invariant: every settlement event
carries a non-null-success outcome. -/
def eventNonNull : Event T E → Bool
  | .resolve _ o => nonNullSuccess o
  | _ => true

/-- Scanning the publication log left to right while accumulating the run
indices of the loading resets seen so far: `true` iff every settlement
publication for fetch `k` is preceded by the loading reset of effect run `k`. -/
def loadBeforeSettle : List Nat → List (Pub T E) → Bool
  | _, [] => true
  | seen, .effectReset k _ :: rest => loadBeforeSettle (k :: seen) rest
  | seen, .settle k _ :: rest => seen.contains k && loadBeforeSettle seen rest

/-- The accumulator of `loadBeforeSettle` after scanning a whole log. -/
def finalSeen : List Nat → List (Pub T E) → List Nat
  | seen, [] => seen
  | seen, .effectReset k _ :: rest => finalSeen (k :: seen) rest
  | seen, .settle _ _ :: rest => finalSeen seen rest

/-- The payload of Scenario A, `GET /todos/1`. -/
structure Todo where
  userId : Nat
  id : Nat
  title : String
  completed : Bool

/-- `{userId:1, id:1, title:"delectus aut autem", completed:false}`. -/
def todo1 : Todo :=
  { userId := 1, id := 1, title := "delectus aut autem", completed := false }

/-- Running a trace extended by one event is one step on the reached
configuration. -/
theorem run_append_one (evs : List (Event T E)) (e : Event T E) :
    run (evs ++ [e]) = step (run evs) e := by
  simp [run, List.foldl_append]

/-- Claim C1, code-bug demonstration.  The effect in the source returns no
cleanup function and captures no "is this still the active request" flag, so
the settlement callbacks call `setState` unconditionally.  First trace: the
url changes from `/todos/1` to `/todos/2` before fetch 0 resolves, yet when
fetch 0 resolves its `setState` is called and the observable state carries
fetch 0's stale payload while the current identifier is `/todos/2`.  Second
trace: the component is unmounted while fetch 0 is outstanding, yet its
`setState` call is still made (recorded in the publication log) when fetch 0
later resolves. -/
theorem stale_publish_occurs :
    (run ([.render "/todos/1", .render "/todos/2",
           .resolve 0 (.response true 200 (.ok (some todo1)))] : List (Event Todo String)))
      = { mounted := true,
          state := { data := some todo1, loading := false, error := none },
          lastDep := some "/todos/2",
          fetches := ["/todos/1", "/todos/2"],
          settled := [0],
          pubs := [.effectReset 0 "/todos/1", .effectReset 1 "/todos/2",
                   .settle 0 { data := some todo1, loading := false, error := none }] } ∧
    (run ([.render "/todos/3", .unmount,
           .resolve 0 (.response true 200 (.ok (some todo1)))] : List (Event Todo String))).mounted
      = false ∧
    (run ([.render "/todos/3", .unmount,
           .resolve 0 (.response true 200 (.ok (some todo1)))] : List (Event Todo String))).pubs
      = [.effectReset 0 "/todos/3",
         .settle 0 { data := some todo1, loading := false, error := none }] :=
  ⟨rfl, rfl, rfl⟩

/-- Claim C2, counterexample: a successful response whose body parses to the
JSON value `null` publishes `{data: null, loading: false, error: null}`, a
state satisfying none of the three forms, so a fourth combination is
observable. -/
theorem three_forms_counterexample :
    formCount (run ([.render "/todos/n", .resolve 0 (.response true 200 (.ok none))]
        : List (Event Todo String))).state = 0 ∧
    (run ([.render "/todos/n", .resolve 0 (.response true 200 (.ok none))]
        : List (Event Todo String))).state
      = { data := none, loading := false, error := none } :=
  ⟨rfl, rfl⟩

/-- Claim C3: every outcome of one of the three error kinds — transport
failure, non-success response status, or parse failure — is caught locally
(`settleState` is total, embedding the catch handler) and publishes state
form (c): loading false, data absent, error present. -/
theorem error_outcome_publishes_formC (o : FetchOutcome T E)
    (h : isErrorOutcome o = true) : formC (settleState o) = true := by
  match o with
  | .transportError e => rfl
  | .response ok status body =>
      cases ok with
      | false => rfl
      | true =>
          cases body with
          | error e => rfl
          | ok v => simp [isErrorOutcome] at h

/-- Witness for claim C3 at a concrete transport failure. -/
theorem error_outcome_publishes_formC_witness :
    isErrorOutcome ((.transportError "ECONNREFUSED") : FetchOutcome Todo String) = true ∧
    formC (settleState ((.transportError "ECONNREFUSED") : FetchOutcome Todo String)) = true :=
  ⟨rfl, error_outcome_publishes_formC _ rfl⟩

/-- Claim C4: every ok response whose body parses to a present value `v`
publishes form (b) with `data = v`, `loading = false`, `error` absent; in
particular Scenario A with the payload
`{userId:1, id:1, title:"delectus aut autem", completed:false}` ends in
exactly that state. -/
theorem success_publishes_payload :
    (∀ (T2 E2 : Type) (status : Nat) (v : T2),
        settleState ((.response true status (.ok (some v))) : FetchOutcome T2 E2)
          = { data := some v, loading := false, error := none }) ∧
    (run ([.render "/todos/1", .resolve 0 (.response true 200 (.ok (some todo1)))]
        : List (Event Todo String))).state
      = { data := some todo1, loading := false, error := none } :=
  ⟨fun _ _ _ _ => rfl, rfl⟩

/-- Claim C8: for every type parameter and every url, the state returned on
the first render — the `useState` initializer, unchanged by the effect's own
reset — is exactly `{data: null, loading: true, error: null}`, which is form
(a); there is no distinct idle state. -/
theorem first_render_loading (T2 E2 : Type) (url : String) :
    (init : Config T2 E2).state = loadingState ∧
    (run ([.render url] : List (Event T2 E2))).state = loadingState ∧
    formA (loadingState : FetchState T2 E2) = true :=
  ⟨rfl, rfl, rfl⟩

/-- Claim C9: a retrieval whose response is ok but whose body parses to the
JSON value `null` publishes `{data: null, loading: false, error: null}`:
data absent, loading false, error absent. -/
theorem null_payload_empty_state :
    settleState ((.response true 200 (.ok none)) : FetchOutcome Todo String)
      = { data := none, loading := false, error := none } ∧
    (run ([.render "/todos/null", .resolve 0 (.response true 200 (.ok none))]
        : List (Event Todo String))).state
      = { data := none, loading := false, error := none } :=
  ⟨rfl, rfl⟩

/-- Claim C10: a response with `ok = false` and status `N` publishes exactly
the thrown `Error` with message `"Request failed with status N"` (so the
message carries the numeric status); a transport rejection or a parse
rejection is stored in the `error` field unchanged. -/
theorem error_field_values (status s2 : Nat) (e : E) (body : Except E (Option T)) :
    (settleState (.response false status body)).error
      = some (.thrown ("Request failed with status " ++ toString status)) ∧
    (settleState ((.transportError e) : FetchOutcome T E)).error = some (.rejected e) ∧
    (settleState ((.response true s2 (.error e)) : FetchOutcome T E)).error
      = some (.rejected e) ∧
    statusMessage 404 = "Request failed with status 404" :=
  ⟨rfl, rfl, rfl, rfl⟩

/-- An invariant preserved by every step holds after every run. -/
theorem foldl_step_inv {P : Config T E → Prop}
    (hstep : ∀ c ev, P c → P (step c ev)) :
    ∀ (evs : List (Event T E)) (c : Config T E), P c → P (evs.foldl step c) := by
  intro evs
  induction evs with
  | nil => intro c h; exact h
  | cons e rest ih => intro c h; exact ih (step c e) (hstep c e h)

/-- An invariant preserved by every step whose event satisfies `eventNonNull`
holds after every run of such events. -/
theorem foldl_step_inv_cond {P : Config T E → Prop}
    (hstep : ∀ c ev, P c → eventNonNull ev = true → P (step c ev)) :
    ∀ (evs : List (Event T E)) (c : Config T E), P c →
      (∀ ev ∈ evs, eventNonNull ev = true) → P (evs.foldl step c) := by
  intro evs
  induction evs with
  | nil => intro c h _; exact h
  | cons e rest ih =>
      intro c h hall
      exact ih (step c e) (hstep c e h (hall e (List.mem_cons_self e rest)))
        (fun ev hev => hall ev (List.mem_cons_of_mem e hev))

/-- A settlement of a non-null-success outcome is in exactly one of the three
forms: form (b) on success, form (c) on any of the three failure kinds. -/
theorem settleState_formCount (o : FetchOutcome T E) (h : nonNullSuccess o = true) :
    formCount (settleState o) = 1 := by
  match o with
  | .transportError e => rfl
  | .response ok status body =>
      cases ok with
      | false => rfl
      | true =>
          cases body with
          | error e => rfl
          | ok v =>
              cases v with
              | none => simp [nonNullSuccess] at h
              | some x => rfl

/-- One step preserves the three-form discipline of the state and of every
recorded publication, for events whose settlements are non-null successes. -/
theorem step_preserves_forms (c : Config T E) (ev : Event T E)
    (h : formCount c.state = 1 ∧ ∀ p ∈ c.pubs, formCount (Pub.state p) = 1)
    (hev : eventNonNull ev = true) :
    formCount (step c ev).state = 1 ∧
      ∀ p ∈ (step c ev).pubs, formCount (Pub.state p) = 1 := by
  obtain ⟨h1, h2⟩ := h
  cases ev with
  | render url =>
      by_cases hm : c.mounted = true
      · by_cases hd : c.lastDep = some url
        · simpa [step, hm, hd] using ⟨h1, h2⟩
        · refine ⟨by simp [step, hm, hd]; rfl, ?_⟩
          intro p hp
          have hp2 : p ∈ c.pubs ∨ p = Pub.effectReset c.fetches.length url := by
            simpa [step, hm, hd] using hp
          rcases hp2 with hp1 | rfl
          · exact h2 p hp1
          · rfl
      · simpa [step, hm] using ⟨h1, h2⟩
  | resolve k o =>
      have hs : formCount (settleState o) = 1 := settleState_formCount o hev
      by_cases hv : k < c.fetches.length ∧ k ∉ c.settled
      · refine ⟨?_, ?_⟩
        · by_cases hm : c.mounted = true <;> simp [step, hv, hm, hs, h1]
        · intro p hp
          have hp2 : p ∈ c.pubs ∨ p = Pub.settle k (settleState o) := by
            simpa [step, hv] using hp
          rcases hp2 with hp1 | rfl
          · exact h2 p hp1
          · simpa [Pub.state] using hs
      · simpa [step, hv] using ⟨h1, h2⟩
  | unmount => simpa [step] using ⟨h1, h2⟩

/-- Claim C2, amended: provided every settlement along the run carries a
non-null success payload (the body of an ok response never parses to the
JSON value `null`), every observation of the hook state — and every state a
`setState` call publishes — satisfies exactly one of the three forms (a),
(b), (c).  Without that proviso a fourth combination is reachable, see the
counterexample. -/
theorem three_forms_invariant (evs : List (Event T E))
    (h : ∀ ev ∈ evs, eventNonNull ev = true) :
    formCount (run evs).state = 1 ∧
      ∀ p ∈ (run evs).pubs, formCount (Pub.state p) = 1 :=
  foldl_step_inv_cond step_preserves_forms evs init
    ⟨rfl, fun p hp => absurd hp (List.not_mem_nil p)⟩ h

/-- Witness for claim C2 on a concrete two-event run. -/
theorem three_forms_invariant_witness :
    (∀ ev ∈ ([.render "/todos/7",
              .resolve 0 (.response true 200 (.ok (some todo1)))] : List (Event Todo String)),
        eventNonNull ev = true) ∧
    formCount (run ([.render "/todos/7",
              .resolve 0 (.response true 200 (.ok (some todo1)))] : List (Event Todo String))).state
      = 1 :=
  ⟨by decide, (three_forms_invariant _ (by decide)).1⟩

/-- `finalSeen` splits over list append. -/
theorem finalSeen_append (l1 l2 : List (Pub T E)) :
    ∀ seen, finalSeen seen (l1 ++ l2) = finalSeen (finalSeen seen l1) l2 := by
  induction l1 with
  | nil => intro seen; rfl
  | cons p rest ih =>
      intro seen
      cases p with
      | effectReset k u => simpa [finalSeen] using ih (k :: seen)
      | settle k s => simpa [finalSeen] using ih seen

/-- Appending a loading-reset publication does not disturb the
reset-before-settlement discipline of the log. -/
theorem loadBeforeSettle_append_reset (l : List (Pub T E)) (k : Nat) (u : String) :
    ∀ seen, loadBeforeSettle seen (l ++ [Pub.effectReset k u]) = loadBeforeSettle seen l := by
  induction l with
  | nil => intro seen; rfl
  | cons p rest ih =>
      intro seen
      cases p with
      | effectReset j v => simp [loadBeforeSettle, ih]
      | settle j s => simp [loadBeforeSettle, ih]

/-- Appending a settlement publication for fetch `k` keeps the discipline iff
the log already contains the loading reset of run `k`. -/
theorem loadBeforeSettle_append_settle (l : List (Pub T E)) (k : Nat) (s : FetchState T E) :
    ∀ seen, loadBeforeSettle seen (l ++ [Pub.settle k s])
      = (loadBeforeSettle seen l && (finalSeen seen l).contains k) := by
  induction l with
  | nil => intro seen; simp [loadBeforeSettle, finalSeen]
  | cons p rest ih =>
      intro seen
      cases p with
      | effectReset j v => simp [loadBeforeSettle, finalSeen, ih]
      | settle j sv => simp [loadBeforeSettle, finalSeen, ih, Bool.and_assoc]

/-- One step preserves: the publication log settles each fetch only after its
loading reset, and every issued fetch has its reset in the log. -/
theorem step_preserves_order (c : Config T E) (ev : Event T E)
    (h : loadBeforeSettle [] c.pubs = true ∧
         ∀ k, k < c.fetches.length → k ∈ finalSeen [] c.pubs) :
    loadBeforeSettle [] (step c ev).pubs = true ∧
      ∀ k, k < (step c ev).fetches.length → k ∈ finalSeen [] (step c ev).pubs := by
  obtain ⟨h1, h2⟩ := h
  cases ev with
  | render url =>
      by_cases hm : c.mounted = true
      · by_cases hd : c.lastDep = some url
        · simpa [step, hm, hd] using ⟨h1, h2⟩
        · refine ⟨?_, ?_⟩
          · simpa [step, hm, hd, loadBeforeSettle_append_reset] using h1
          · intro k hk
            have hk2 : k < c.fetches.length + 1 := by
              simpa [step, hm, hd] using hk
            have hfs : finalSeen [] ((step c (.render url)).pubs)
                = c.fetches.length :: finalSeen [] c.pubs := by
              simp [step, hm, hd, finalSeen_append, finalSeen]
            rw [hfs]
            rcases Nat.lt_succ_iff_lt_or_eq.mp hk2 with hlt | rfl
            · exact List.mem_cons_of_mem _ (h2 k hlt)
            · exact List.mem_cons_self _ _
      · simpa [step, hm] using ⟨h1, h2⟩
  | resolve k o =>
      by_cases hv : k < c.fetches.length ∧ k ∉ c.settled
      · refine ⟨?_, ?_⟩
        · have hc : (finalSeen [] c.pubs).contains k = true :=
            List.elem_eq_true_of_mem (h2 k hv.1)
          simp [step, hv, loadBeforeSettle_append_settle, h1, hc, h2 k hv.1]
        · intro j hj
          have hj2 : j < c.fetches.length := by simpa [step, hv] using hj
          have hfs : finalSeen [] ((step c (.resolve k o)).pubs) = finalSeen [] c.pubs := by
            simp [step, hv, finalSeen_append, finalSeen]
          rw [hfs]
          exact h2 j hj2
      · simpa [step, hv] using ⟨h1, h2⟩
  | unmount => simpa [step] using ⟨h1, h2⟩

/-- Claim C5: in every run, the publication log is reset-before-settlement
disciplined — for each retrieval, the loading publication of its effect run
occurs strictly before that retrieval's success or error publication. -/
theorem loading_before_settlement (evs : List (Event T E)) :
    loadBeforeSettle [] (run evs).pubs = true :=
  (foldl_step_inv (P := fun c => loadBeforeSettle [] c.pubs = true ∧
      ∀ k, k < c.fetches.length → k ∈ finalSeen [] c.pubs)
    step_preserves_order evs init
    ⟨rfl, fun k hk => absurd hk (Nat.not_lt_zero k)⟩).1

/-- Every settled fetch index refers to an issued fetch: `settled` only holds
indices below `fetches.length`. -/
theorem settled_lt_fetches (evs : List (Event T E)) :
    ∀ j ∈ (run evs).settled, j < (run evs).fetches.length := by
  refine foldl_step_inv (P := fun c => ∀ j ∈ c.settled, j < c.fetches.length)
    ?_ evs init (fun j hj => absurd hj (List.not_mem_nil j))
  intro c ev h
  cases ev with
  | render url =>
      by_cases hm : c.mounted = true
      · by_cases hd : c.lastDep = some url
        · simpa [step, hm, hd] using h
        · intro j hj
          have hj2 : j ∈ c.settled := by simpa [step, hm, hd] using hj
          have : j < c.fetches.length := h j hj2
          simp [step, hm, hd]
          omega
      · simpa [step, hm] using h
  | resolve k o =>
      by_cases hv : k < c.fetches.length ∧ k ∉ c.settled
      · intro j hj
        have hj2 : j ∈ c.settled ++ [k] := by simpa [step, hv] using hj
        have hlen : (step c (.resolve k o)).fetches.length = c.fetches.length := by
          simp [step, hv]
        rw [hlen]
        rcases List.mem_append.mp hj2 with hj3 | hj3
        · exact h j hj3
        · rcases List.mem_singleton.mp hj3 with rfl
          exact hv.1
      · simpa [step, hv] using h
  | unmount => simpa [step] using h

/-- Claim C6: whenever the rendered url differs from the effect's last
dependency snapshot, the effect re-runs: the observable state is reset to
form (a) `{data: null, loading: true, error: null}`, the loading reset is
published, and the newly issued retrieval is not yet settled at that point
(it resolves only later). -/
theorem url_change_resets_state (evs : List (Event T E)) (url : String)
    (hm : (run evs).mounted = true) (hd : (run evs).lastDep ≠ some url) :
    (run (evs ++ [.render url])).state = loadingState ∧
    (run (evs ++ [.render url])).pubs
      = (run evs).pubs ++ [.effectReset (run evs).fetches.length url] ∧
    (run evs).fetches.length ∉ (run (evs ++ [.render url])).settled := by
  refine ⟨?_, ?_, ?_⟩
  · rw [run_append_one]; simp [step, hm, hd]
  · rw [run_append_one]; simp [step, hm, hd]
  · rw [run_append_one]
    intro hmem
    have hmem2 : (run evs).fetches.length ∈ (run evs).settled := by
      simpa [step, hm, hd] using hmem
    exact absurd (settled_lt_fetches evs _ hmem2) (Nat.lt_irrefl _)

/-- Witness for claim C6: changing the url from `/todos/1` to `/todos/2`
resets the state to form (a). -/
theorem url_change_resets_state_witness :
    (run ([.render "/todos/1"] : List (Event Todo String))).mounted = true ∧
    (run ([.render "/todos/1"] : List (Event Todo String))).lastDep ≠ some "/todos/2" ∧
    (run (([.render "/todos/1"] : List (Event Todo String)) ++ [.render "/todos/2"])).state
      = loadingState :=
  ⟨rfl, by decide,
   (url_change_resets_state ([.render "/todos/1"] : List (Event Todo String)) "/todos/2"
      rfl (by decide)).1⟩

/-- Claim C7: a re-render with the unchanged url leaves the configuration
untouched — no new fetch, no publication — while a render with a changed url
(on a mounted component) issues exactly one new fetch, never suppressed by
any caching or de-duplication. -/
theorem one_fetch_per_trigger (evs : List (Event T E)) (url : String) :
    ((run evs).lastDep = some url → run (evs ++ [.render url]) = run evs) ∧
    ((run evs).mounted = true → (run evs).lastDep ≠ some url →
      (run (evs ++ [.render url])).fetches = (run evs).fetches ++ [url]) := by
  constructor
  · intro h
    rw [run_append_one]
    simp [step, h]
  · intro hm hd
    rw [run_append_one]
    simp [step, hm, hd]

/-- Witness for claim C7: a duplicate render with `/todos/1` changes nothing,
and a render with the fresh url `/todos/2` issues exactly one new fetch. -/
theorem one_fetch_per_trigger_witness :
    ((run ([.render "/todos/1"] : List (Event Todo String))).lastDep = some "/todos/1" ∧
     run (([.render "/todos/1"] : List (Event Todo String)) ++ [.render "/todos/1"])
       = run ([.render "/todos/1"] : List (Event Todo String))) ∧
    ((run ([.render "/todos/1"] : List (Event Todo String))).mounted = true ∧
     (run ([.render "/todos/1"] : List (Event Todo String))).lastDep ≠ some "/todos/2" ∧
     (run (([.render "/todos/1"] : List (Event Todo String)) ++ [.render "/todos/2"])).fetches
       = (run ([.render "/todos/1"] : List (Event Todo String))).fetches ++ ["/todos/2"]) :=
  ⟨⟨rfl, (one_fetch_per_trigger _ _).1 rfl⟩,
   rfl, by decide, (one_fetch_per_trigger _ _).2 rfl (by decide)⟩

end UseFetch
